import Mathlib

/-!
Verification of the check-orchestration engine in
`Linux/hpc/beefs/monitor_hpc.py` (functions `get_status_level`,
`check_cpu_memory`, `check_infiniband`, `check_disk_health`, `check_disk_io`,
`check_gpus`, `setup_output_files`, `log_to_csv`, `main`).

Modelling conventions:
* External command execution (`run_command`) is an oracle
  `Env : String → String × Int` mapping the exact command string to the
  pair (combined stdout/stderr text, exit code), mirroring the Python
  return value `(output, code)`.
* Python strings are Lean `String`; the Python string operations used by
  the source (`split`, `splitlines`, `strip`, `startswith`, `rstrip`,
  `in`, `str.replace(..., 1)`, `int()`, `float()`) are re-implemented
  below by structural recursion so that concrete runs reduce inside the
  kernel.  `splitlines` is modelled for `\n`-separated text (the source
  only ever feeds it command output); `int()`/`float()` are modelled on
  plain optionally-signed decimal literals, the only shapes the parsed
  tool outputs produce.
* Python `float` arithmetic is modelled by `ℚ`.  The source only
  compares, adds, subtracts, divides and multiplies values parsed from
  decimal text, so rational arithmetic is exact for every computation a
  claim mentions; the cosmetic rendering of numbers inside free-text
  `details` messages (`str(x)`, `:.1f`, `:.0f`) is approximated by
  `fmt1`/`fmt0` (fixed-point, round-half-up) and no claim depends on it.
* A Python function that can raise an uncaught exception is modelled
  with `Except String`; a function that cannot is total.
-/

set_option maxRecDepth 40000

namespace MonitorHpc

/-! ## Python string primitives (structural recursion, kernel-reducible) -/

/-- If `pat` is a prefix of the second list, return the remainder. -/
def takeDropPat : List Char → List Char → Option (List Char)
  | [], rest => some rest
  | _ :: _, [] => none
  | p :: ps, c :: cs => if p = c then takeDropPat ps cs else none

/-- Fuel-driven worker for `pySplitOn`; fuel starts at `length + 1` and is
consumed one unit per examined position, so it never runs out. -/
def splitOnCharsAux (pat : List Char) : Nat → List Char → List Char → List (List Char)
  | 0, acc, _ => [acc.reverse]
  | _ + 1, acc, [] => [acc.reverse]
  | fuel + 1, acc, c :: cs =>
    match takeDropPat pat (c :: cs) with
    | some rest => acc.reverse :: splitOnCharsAux pat fuel [] rest
    | none => splitOnCharsAux pat fuel (c :: acc) cs

/-- Python `s.split(sep)` for a non-empty separator (all occurrences,
leftmost, non-overlapping); never returns an empty list. -/
def pySplitOn (s sep : String) : List String :=
  if sep.data = [] then [s]
  else (splitOnCharsAux sep.data (s.data.length + 1) [] s.data).map String.mk

/-- Python `s.startswith(pre)`. -/
def pyStartsWith (s pre : String) : Bool :=
  (takeDropPat pre.data s.data).isSome

/-- The whitespace set of Python `str.strip()` / `str.split()`. -/
def pyIsSpace (c : Char) : Bool :=
  c = ' ' || c = '\t' || c = '\n' || c = '\r' || c = '\x0b' || c = '\x0c'

/-- Python `s.strip()`. -/
def pyStrip (s : String) : String :=
  String.mk (((s.data.dropWhile pyIsSpace).reverse.dropWhile pyIsSpace).reverse)

/-- Fuel-driven worker for `pywords`. -/
def splitWsAux : Nat → List Char → List Char → List (List Char)
  | 0, acc, _ => [acc.reverse]
  | _ + 1, acc, [] => [acc.reverse]
  | fuel + 1, acc, c :: cs =>
    if pyIsSpace c then acc.reverse :: splitWsAux fuel [] cs
    else splitWsAux fuel (c :: acc) cs

/-- Python `s.split()` with no argument: split on whitespace runs,
dropping empty fields. -/
def pywords (s : String) : List String :=
  ((splitWsAux (s.data.length + 1) [] s.data).filter (· ≠ [])).map String.mk

/-- Python `s.splitlines()` for `\n`-separated text: like splitting on
`\n` but without a trailing empty line, and `[]` on the empty string. -/
def splitlines (s : String) : List String :=
  let l := pySplitOn s "\n"
  if l.getLast? = some "" then l.dropLast else l

/-- Python `needle in hay` for a non-empty needle. -/
def strContains (hay needle : String) : Bool :=
  (pySplitOn hay needle).length > 1

/-- Python `s.replace(pat, rep, 1)`: replace only the first occurrence. -/
def replaceFirst (s pat rep : String) : String :=
  match pySplitOn s pat with
  | [] => s
  | [_] => s
  | p :: ps => p ++ rep ++ String.intercalate pat ps

/-- Python `s.rstrip(':')`. -/
def pyRstripColon (s : String) : String :=
  String.mk ((s.data.reverse.dropWhile (· = ':')).reverse)

/-- Accumulate a decimal digit string into a number; `none` on any
non-digit. -/
def digitsToNat : Nat → List Char → Option Nat
  | acc, [] => some acc
  | acc, c :: cs =>
    if c.isDigit then digitsToNat (acc * 10 + (c.toNat - '0'.toNat)) cs else none

/-- Python `int(s)` on optionally-signed decimal literals; `none` models
the `ValueError` branch. -/
def pyint? (s : String) : Option Int :=
  match (pyStrip s).data with
  | [] => none
  | '-' :: cs => if cs = [] then none else (digitsToNat 0 cs).map (fun n => -(n : Int))
  | '+' :: cs => if cs = [] then none else (digitsToNat 0 cs).map (fun n => (n : Int))
  | cs => (digitsToNat 0 cs).map (fun n => (n : Int))

/-- Python `float(s)` on optionally-signed plain decimal literals
(`"12"`, `"12.5"`, `"12."`, `".5"`); `none` models the `ValueError`
branch.  Exponent/`inf`/`nan` forms never occur in the parsed outputs. -/
def pyfloat? (s : String) : Option ℚ :=
  match (pyStrip s).data with
  | [] => none
  | all =>
    let signed : ℚ × List Char :=
      match all with
      | '-' :: rest => (-1, rest)
      | '+' :: rest => (1, rest)
      | rest => (1, rest)
    match splitOnCharsAux ['.'] (signed.2.length + 1) [] signed.2 with
    | [as] => (digitsToNat 0 as).map (fun n => signed.1 * n)
    | [as, bs] =>
      if as = [] ∧ bs = [] then none
      else
        match (if as = [] then some 0 else digitsToNat 0 as),
              (if bs = [] then some 0 else digitsToNat 0 bs) with
        | some i, some f => some (signed.1 * ((i : ℚ) + (f : ℚ) / ((10 : ℚ) ^ bs.length)))
        | _, _ => none
    | _ => none

/-- Fixed-point rendering with one decimal place, approximating Python
`str(float)` / `"{:.1f}"` on the one-decimal values the checks handle
(round half-up instead of round half-even; no claim depends on it). -/
def fmt1 (q : ℚ) : String :=
  let n : ℤ := round (q * 10)
  (if n < 0 then "-" else "") ++ toString (n.natAbs / 10) ++ "." ++ toString (n.natAbs % 10)

/-- Rendering with no decimal place, approximating Python `"{:.0f}"`. -/
def fmt0 (q : ℚ) : String :=
  toString (round q : ℤ)

/-! ## Data model -/

/-- One diagnostic observation, the dict
`{'category', 'item', 'status', 'priority', 'details'}` every check in
`monitor_hpc.py` builds.  Every producer in the source sets all five
keys, so the fields are total (the `check.get(..., 'N/A')` defaults in
`log_to_csv` are unreachable). -/
structure Finding where
  category : String
  item : String
  status : String
  priority : String
  details : String
deriving DecidableEq

/-- Oracle for `run_command` (monitor_hpc.py lines 169-184): maps the
exact command string to the stripped combined output and the exit
code. -/
abbrev Env := String → String × Int

/-! ## Configuration constants (monitor_hpc.py lines 22-42); the source
writes them as the floats `85.0` etc., the same rational values. -/

def CPU_THRESHOLD_WARN : ℚ := 85
def MEM_THRESHOLD_WARN : ℚ := 85
def IO_AWAIT_THRESHOLD_WARN : ℚ := 50
def IO_UTIL_THRESHOLD_WARN : ℚ := 90
def SSD_PERCENTAGE_USED_THRESHOLD_WARN : ℚ := 85
def SSD_TEMPERATURE_THRESHOLD_WARN : ℚ := 70
def GPU_TEMP_THRESHOLD_WARN : ℚ := 85
def GPU_UTIL_THRESHOLD_WARN : ℚ := 90

/-! ## Severity classifier (monitor_hpc.py lines 83-87) -/

/-- `get_status_level(value, warn_threshold)`: status plus message, with
the source's `value >= warn_threshold` comparison. -/
def get_status_level (value warn_threshold : ℚ) : String × String :=
  if value ≥ warn_threshold then
    ("ATENÇÃO", "Uso de " ++ fmt1 value ++ "% excede o limite de " ++ fmt1 warn_threshold ++ "%")
  else
    ("NORMAL", "Uso de " ++ fmt1 value ++ "%")

/-! ## CPU usage (monitor_hpc.py lines 104-118) -/

/-- The CPU-usage computation of `check_cpu_memory` from two counter
samples `(total1, idle1)`, `(total2, idle2)` of `get_cpu_times`:
`0.0` when the total delta is zero, otherwise
`100 * (delta_total - delta_idle) / delta_total`. -/
def cpu_usage (total1 idle1 total2 idle2 : ℤ) : ℚ :=
  let delta_total := total2 - total1
  let delta_idle := idle2 - idle1
  if delta_total = 0 then 0
  else 100 * ((delta_total : ℚ) - (delta_idle : ℚ)) / (delta_total : ℚ)

/-! ## Memory check (monitor_hpc.py lines 126-153, 161-167) -/

/-- The `/proc/meminfo` parsing loop: for each line with at least two
whitespace-separated fields, map `parts[0].rstrip(':')` to
`int(parts[1])`; a failing `int()` raises `ValueError`, modelled as
`Except.error`.  Entries are kept in order; `mem_get` takes the last
binding, matching dict-assignment overwrite. -/
def parse_meminfo : List String → Except String (List (String × Int))
  | [] => Except.ok []
  | line :: rest =>
    let parts := pywords line
    if parts.length ≥ 2 then
      match pyint? (parts.getD 1 "") with
      | some v => (parse_meminfo rest).map (fun m => (pyRstripColon (parts.getD 0 ""), v) :: m)
      | none =>
        Except.error ("invalid literal for int() with base 10: \x27" ++ parts.getD 1 "" ++ "\x27")
    else parse_meminfo rest

/-- `mem_info.get(key, 0)`: last binding wins, default 0. -/
def mem_get (m : List (String × Int)) (key : String) : Int :=
  match m.reverse.find? (fun p => p.1 == key) with
  | some p => p.2
  | none => 0

/-- `mem_used / mem_total * 100` with the source's `mem_total == 0`
guard, where `mem_used = MemTotal - MemFree - Buffers - Cached -
SReclaimable`. -/
def mem_usage_of (m : List (String × Int)) : ℚ :=
  let mem_total := mem_get m "MemTotal"
  let mem_free := mem_get m "MemFree"
  let buffers := mem_get m "Buffers"
  let cached := mem_get m "Cached"
  let sreclaimable := mem_get m "SReclaimable"
  let mem_used := mem_total - mem_free - buffers - cached - sreclaimable
  if mem_total = 0 then 0 else ((mem_used : ℚ) / (mem_total : ℚ)) * 100

/-- The memory half of `check_cpu_memory`, as a function of the text
read from `/proc/meminfo`. -/
def check_memory (meminfo : String) : Finding :=
  match parse_meminfo (splitlines meminfo) with
  | Except.error e =>
    { category := "Recursos de Sistema", item := "Uso de Memória", status := "FALHA"
      priority := "P1 (Crítica)"
      details := "Não foi possível ler as estatísticas de memória do /proc/meminfo. Erro: " ++ e }
  | Except.ok m =>
    { category := "Recursos de Sistema", item := "Uso de Memória"
      status := (get_status_level (mem_usage_of m) MEM_THRESHOLD_WARN).1
      priority :=
        if (get_status_level (mem_usage_of m) MEM_THRESHOLD_WARN).1 = "ATENÇÃO" then "P2 (Alta)"
        else "P4 (Informativa)"
      details := (get_status_level (mem_usage_of m) MEM_THRESHOLD_WARN).2 }

/-! ## InfiniBand check (monitor_hpc.py lines 187-266) -/

/-- Mutable state of the `ibstat` line loop: `current_port`, `status`,
`details_list`.  `current_port` starts as Python `None`, which renders
as the string `"None"` in the only place it is used. -/
structure IbScan where
  current_port : String
  status : String
  details_list : List String

/-- One iteration of the `ibstat` parsing loop (lines 210-226). -/
def ib_scan_line (st : IbScan) (raw : String) : IbScan :=
  let line := pyStrip raw
  if pyStartsWith line "Port " then
    { st with current_port := (pySplitOn line ":").headD line }
  else if pyStartsWith line "State:" then
    let port_state := pyStrip ((pySplitOn line ":").getD 1 "")
    { st with
      status := if port_state ≠ "Active" then "ATENÇÃO" else st.status
      details_list := st.details_list ++ [st.current_port ++ ": Estado: " ++ port_state] }
  else if pyStartsWith line "Physical state:" then
    let phys_state := pyStrip ((pySplitOn line ":").getD 1 "")
    { st with
      status := if phys_state ≠ "LinkUp" then "ATENÇÃO" else st.status
      details_list := st.details_list ++ [", Estado Físico: " ++ phys_state] }
  else if pyStartsWith line "Rate:" then
    let rate := pyStrip ((pySplitOn line ":").getD 1 "")
    { st with details_list := st.details_list ++ [", Taxa: " ++ rate] }
  else st

/-- The `ibnetdiscover` line filter (lines 237-249): a line beginning
with `Ca`, containing `-> SW`, whose text after the first `->` has a
quoted name (otherwise Python's `switch_info[1]` raises `IndexError`
and the line is skipped). -/
def ib_ca_sw_line (line : String) : Bool :=
  pyStartsWith line "Ca" && strContains line "-> SW" &&
    decide ((pySplitOn (pyStrip ((pySplitOn line "->").getD 1 "")) "\"").length ≥ 2)

/-- The switch name extracted from a matching `ibnetdiscover` line. -/
def ib_switch_name (line : String) : String :=
  (pySplitOn (pyStrip ((pySplitOn line "->").getD 1 "")) "\"").getD 1 ""

/-- `check_infiniband()`: `none` models the Python `None` that makes
`main` skip the check entirely; otherwise exactly one combined
Finding. -/
def check_infiniband (env : Env) : Option Finding :=
  if (env "ibstat -V").2 ≠ 0 then none
  else
    let output := (env "ibstat").1
    if (env "ibstat").2 ≠ 0 then
      some { category := "Rede de Alta Performance", item := "InfiniBand Status"
             status := "FALHA", priority := "P1 (Crítica)"
             details := "Falha ao executar \x27ibstat\x27. Saída: " ++ output }
    else
      let scan := (splitlines output).foldl ib_scan_line ⟨"None", "NORMAL", []⟩
      let joined := String.join scan.details_list
      let stripped := pyStrip (replaceFirst joined ", " "\n")
      let ib_health_details :=
        if stripped = "" then "Não foi possível extrair detalhes da porta do ibstat."
        else stripped
      let status := if stripped = "" then "FALHA" else scan.status
      let ibnet_output := (env "ibnetdiscover").1
      let switch_details :=
        if (env "ibnetdiscover").2 = 0 then
          match (splitlines ibnet_output).find? ib_ca_sw_line with
          | some line => "Conectado ao Switch: " ++ ib_switch_name line
          | none => "Informação do switch não disponível."
        else "Informação do switch não disponível."
      let final_details := ib_health_details ++ "\n" ++ switch_details
      let priority :=
        if status = "FALHA" then "P1 (Crítica)"
        else if status = "ATENÇÃO" then "P2 (Alta)"
        else "P4 (Informativa)"
      some { category := "Rede de Alta Performance", item := "InfiniBand Health & Topology"
             status := status, priority := priority, details := final_details }

/-! ## S.M.A.R.T. disk check (monitor_hpc.py lines 329-413) -/

/-- One line of the `smartctl -A` scan (lines 383-398): at most one SSD
warning per line, `none` both when no threshold is exceeded and when
parsing fails (the `continue` branch). -/
def ssd_line_warning (line : String) : Option String :=
  if strContains line "Percentage Used" then
    match ((pywords line).getLast?).bind pyfloat? with
    | some percentage_used =>
      if percentage_used ≥ SSD_PERCENTAGE_USED_THRESHOLD_WARN then
        some ("Desgaste (" ++ fmt1 percentage_used ++ "%) excede o limite de "
          ++ fmt1 SSD_PERCENTAGE_USED_THRESHOLD_WARN ++ "%.")
      else none
    | none => none
  else if strContains line "Temperature_Celsius" then
    match ((pywords line).getLast?).bind pyint? with
    | some temperature =>
      if (temperature : ℚ) ≥ SSD_TEMPERATURE_THRESHOLD_WARN then
        some ("Temperatura (" ++ toString temperature ++ "°C) excede o limite de "
          ++ fmt1 SSD_TEMPERATURE_THRESHOLD_WARN ++ "°C.")
      else none
    | none => none
  else if strContains line "Critical Warning" then
    match ((pywords line).getLast?).bind pyint? with
    | some crit_warn_val =>
      if crit_warn_val ≠ 0 then
        some ("Alerta Crítico de hardware S.M.A.R.T. ativo (valor: " ++ toString crit_warn_val ++ ").")
      else none
    | none => none
  else none

/-- The per-disk body of the `check_disk_health` loop (lines 348-411). -/
def smart_disk_finding (env : Env) (disk : String) : Finding :=
  let device_path := "/dev/" ++ disk
  let smart_output := (env ("LC_ALL=C smartctl -H " ++ device_path)).1
  let smart_code := (env ("LC_ALL=C smartctl -H " ++ device_path)).2
  let base : String × String × String :=
    if strContains smart_output "SMART overall-health self-assessment test result: PASSED" then
      ("NORMAL", "P4 (Informativa)", "O teste de autoavaliação S.M.A.R.T. foi aprovado.")
    else if strContains smart_output "SMART overall-health self-assessment test result: FAILED" then
      ("FALHA", "P1 (Crítica)",
        "O teste de autoavaliação S.M.A.R.T. FALHOU. Recomenda-se a substituição do disco.")
    else if strContains smart_output "SMART support is: Disabled" then
      ("ATENÇÃO", "P3 (Média)", "O suporte a S.M.A.R.T. está desativado neste dispositivo.")
    else if strContains smart_output "SMART support is: Unavailable" then
      ("NORMAL", "P4 (Informativa)", "O dispositivo não suporta S.M.A.R.T.")
    else if smart_code ≠ 0 then
      ("FALHA", "P2 (Alta)",
        "Erro ao executar smartctl para " ++ device_path ++ ". Verifique as permissões.\nSaída:\n"
          ++ smart_output)
    else
      ("FALHA", "P2 (Alta)",
        "Não foi possível determinar o estado S.M.A.R.T. para " ++ device_path ++ ".\nSaída:\n"
          ++ smart_output)
  let is_ssd_output := (env ("cat /sys/block/" ++ disk ++ "/queue/rotational")).1
  if pyStrip is_ssd_output = "0" ∧ base.1 = "NORMAL" then
    let attr_output := (env ("LC_ALL=C smartctl -A " ++ device_path)).1
    let ssd_warnings := (splitlines attr_output).filterMap ssd_line_warning
    if ssd_warnings ≠ [] then
      { category := "Saúde dos Discos (S.M.A.R.T.)", item := "Disco " ++ device_path
        status := "ATENÇÃO", priority := "P2 (Alta)"
        details := base.2.2 ++ " " ++ String.intercalate " " ssd_warnings }
    else
      { category := "Saúde dos Discos (S.M.A.R.T.)", item := "Disco " ++ device_path
        status := base.1, priority := base.2.1, details := base.2.2 }
  else
    { category := "Saúde dos Discos (S.M.A.R.T.)", item := "Disco " ++ device_path
      status := base.1, priority := base.2.1, details := base.2.2 }

/-- `check_disk_health()` (lines 329-413). -/
def check_disk_health (env : Env) : List Finding :=
  if (env "smartctl -V").2 ≠ 0 then []
  else
    let output := (env "ls /sys/block").1
    if (env "ls /sys/block").2 ≠ 0 then
      [{ category := "Saúde dos Discos (S.M.A.R.T.)", item := "Listagem de Discos"
         status := "FALHA", priority := "P2 (Alta)"
         details := "Não foi possível listar os dispositivos de bloco. Saída: " ++ output }]
    else
      let disk_names := (splitlines output).filter
        (fun d => !(pyStartsWith d "loop" || pyStartsWith d "ram" || pyStartsWith d "sr"))
      disk_names.map (smart_disk_finding env)

/-! ## GPU check (monitor_hpc.py lines 687-751) -/

/-- The per-line body of the `check_gpus` loop (lines 708-750); the
`(ValueError, IndexError)` handler maps to the `parse_fail` finding. -/
def gpu_line_finding (line : String) : Finding :=
  let parse_fail : Finding :=
    { category := "Recursos de GPU", item := "Análise de GPU", status := "FALHA"
      priority := "P2 (Alta)"
      details := "Não foi possível analisar a linha de dados da GPU: \"" ++ line ++ "\"" }
  match (pySplitOn line ",").map pyStrip with
  | [gpu_index, name, temp_s, util_s, mem_used_s, mem_total_s] =>
    match pyfloat? temp_s, pyfloat? util_s, pyfloat? mem_used_s, pyfloat? mem_total_s with
    | some temp, some util, some mem_used, some mem_total =>
      let mem_percent := if mem_total > 0 then mem_used / mem_total * 100 else 0
      let warnings :=
        (if temp ≥ GPU_TEMP_THRESHOLD_WARN then
          ["Temp: " ++ fmt1 temp ++ "°C (Limite: " ++ fmt1 GPU_TEMP_THRESHOLD_WARN ++ "°C)"]
         else []) ++
        (if util ≥ GPU_UTIL_THRESHOLD_WARN then
          ["Uso: " ++ fmt1 util ++ "% (Limite: " ++ fmt1 GPU_UTIL_THRESHOLD_WARN ++ "%)"]
         else [])
      if warnings = [] then
        { category := "Recursos de GPU", item := "GPU " ++ gpu_index ++ ": " ++ name
          status := "NORMAL", priority := "P4 (Informativa)"
          details := "Temp: " ++ fmt1 temp ++ "°C, Uso: " ++ fmt1 util ++ "%, Memória: "
            ++ fmt0 mem_used ++ "/" ++ fmt0 mem_total ++ " MB (" ++ fmt1 mem_percent ++ "%)" }
      else
        { category := "Recursos de GPU", item := "GPU " ++ gpu_index ++ ": " ++ name
          status := "ATENÇÃO", priority := "P2 (Alta)"
          details := String.intercalate ", " warnings }
    | _, _, _, _ => parse_fail
  | _ => parse_fail

/-- `check_gpus()` (lines 687-751). -/
def check_gpus (env : Env) : List Finding :=
  if (env "nvidia-smi -L").2 ≠ 0 then []
  else
    let query_command :=
      "nvidia-smi --query-gpu=index,name,temperature.gpu,utilization.gpu,memory.used,memory.total --format=csv,noheader,nounits"
    let output := (env query_command).1
    if (env query_command).2 ≠ 0 then
      [{ category := "Recursos de GPU", item := "Execução do nvidia-smi", status := "FALHA"
         priority := "P2 (Alta)"
         details := "Não foi possível obter dados das GPUs. Saída:\n" ++ output }]
    else (splitlines output).map gpu_line_finding

/-! ## Disk-I/O check (monitor_hpc.py lines 415-594) -/

/-- `find_beegfs_mounts()` (lines 415-434). -/
def find_beegfs_mounts (env : Env) : List String :=
  if (env "mount").2 ≠ 0 then []
  else
    (splitlines (env "mount").1).filterMap (fun line =>
      if strContains line " on /BeeGFS" then
        let mount_point := (pySplitOn ((pySplitOn line " on ").getD 1 "") " type ").headD ""
        if pyStartsWith mount_point "/BeeGFS" then some mount_point else none
      else none)

/-- Result of the iostat-output parsing `try` block (lines 462-503). -/
structure IostatParse where
  has_extended_await : Bool
  r_await_idx : Nat
  w_await_idx : Nat
  await_idx : Nat
  util_idx : Nat
  device_data_lines : List String

/-- The FALHA Finding produced by the parsing `except` handler, with the
raised message interpolated. -/
def iostat_parse_finding (msg output : String) : Finding :=
  { category := "Performance de Disco (I/O)", item := "Análise da saída do iostat"
    status := "FALHA", priority := "P2 (Alta)"
    details := "Não foi possível analisar a saída do iostat: " ++ msg
      ++ ". Saída completa:\n" ++ output }

/-- The iostat header/column analysis (lines 462-503).  When a column is
absent its index field is unused downstream, matching the Python
variables simply not being assigned. -/
def parse_iostat (output : String) : Except Finding IostatParse :=
  let last_block := ((pySplitOn output "avg-cpu:").getLast?).getD ""
  let lines := splitlines (pyStrip last_block)
  match lines.findIdx? (fun l => pyStartsWith (pyStrip l) "Device") with
  | none =>
    Except.error (iostat_parse_finding
      "Linha de cabeçalho \x27Device\x27 não encontrada na saída do iostat" output)
  | some header_line_index =>
    let header := pywords (lines.getD header_line_index "")
    let has_extended := header.contains "r_await" && header.contains "w_await"
    let has_simple := header.contains "await"
    if !has_extended && !has_simple then
      Except.error (iostat_parse_finding
        "Não foram encontradas colunas de latência (\x27await\x27 ou \x27r_await\x27/\x27w_await\x27)"
        output)
    else if !header.contains "%util" then
      Except.error (iostat_parse_finding "\x27%util\x27 is not in list" output)
    else
      Except.ok
        { has_extended_await := has_extended
          r_await_idx := header.findIdx (· == "r_await")
          w_await_idx := header.findIdx (· == "w_await")
          await_idx := header.findIdx (· == "await")
          util_idx := header.findIdx (· == "%util")
          device_data_lines := lines.drop (header_line_index + 1) }

/-- `float(stats[i])` on a stats row: `none` covers both the
`IndexError` and the `ValueError` of the inner `try` (lines 531-582). -/
def fetch_float (stats : List String) (i : Nat) : Option ℚ :=
  (stats.get? i).bind pyfloat?

/-- The stats-row analysis for one matched device line (lines 531-582). -/
def io_stats_finding (pd : IostatParse) (device_name mount line : String) : Finding :=
  let stats := pywords line
  let item := "Disco " ++ device_name ++ " (" ++ mount ++ ")"
  let parse_fail : Finding :=
    { category := "Performance de Disco (I/O)", item := item, status := "FALHA"
      priority := "P2 (Alta)"
      details := "Não foi possível extrair as estatísticas de I/O da linha: \"" ++ line ++ "\"" }
  match fetch_float stats pd.util_idx with
  | none => parse_fail
  | some io_util =>
    if pd.has_extended_await then
      match fetch_float stats pd.r_await_idx, fetch_float stats pd.w_await_idx with
      | some r_await, some w_await =>
        let warnings :=
          (if r_await ≥ IO_AWAIT_THRESHOLD_WARN then
            ["Latência de leitura de " ++ fmt1 r_await ++ "ms excede o limite."] else []) ++
          (if w_await ≥ IO_AWAIT_THRESHOLD_WARN then
            ["Latência de escrita de " ++ fmt1 w_await ++ "ms excede o limite."] else []) ++
          (if io_util ≥ IO_UTIL_THRESHOLD_WARN then
            ["Utilização de " ++ fmt1 io_util ++ "% excede o limite."] else [])
        if warnings = [] then
          { category := "Performance de Disco (I/O)", item := item, status := "NORMAL"
            priority := "P4 (Informativa)"
            details := "Latência R/W: " ++ fmt1 r_await ++ "ms/" ++ fmt1 w_await
              ++ "ms, Utilização: " ++ fmt1 io_util ++ "%." }
        else
          { category := "Performance de Disco (I/O)", item := item, status := "ATENÇÃO"
            priority := "P2 (Alta)", details := String.intercalate " " warnings }
      | _, _ => parse_fail
    else
      match fetch_float stats pd.await_idx with
      | some io_await =>
        let warnings :=
          (if io_await ≥ IO_AWAIT_THRESHOLD_WARN then
            ["Latência de " ++ fmt1 io_await ++ "ms excede o limite."] else []) ++
          (if io_util ≥ IO_UTIL_THRESHOLD_WARN then
            ["Utilização de " ++ fmt1 io_util ++ "% excede o limite."] else [])
        if warnings = [] then
          { category := "Performance de Disco (I/O)", item := item, status := "NORMAL"
            priority := "P4 (Informativa)"
            details := "Latência: " ++ fmt1 io_await ++ "ms, Utilização: " ++ fmt1 io_util ++ "%." }
        else
          { category := "Performance de Disco (I/O)", item := item, status := "ATENÇÃO"
            priority := "P2 (Alta)", details := String.intercalate " " warnings }
      | none => parse_fail

/-- Python `os.path.basename`. -/
def basename (p : String) : String :=
  ((pySplitOn p "/").getLast?).getD p

/-- The per-mount body of the `check_disk_io` loop (lines 505-592).  The
`Except.error` branch models the uncaught `IndexError` of
`df_output.splitlines()[-1].split()[0]` on a whitespace-only last
line. -/
def io_mount_findings (env : Env) (pd : IostatParse) (mount : String) :
    Except String (List Finding) :=
  let df_output := (env ("df " ++ mount)).1
  if (env ("df " ++ mount)).2 ≠ 0 ∨ (splitlines df_output).length < 2 then Except.ok []
  else
    match pywords (((splitlines df_output).getLast?).getD "") with
    | [] => Except.error "IndexError: list index out of range"
    | device_path :: _ =>
      let lsblk_output := (env ("lsblk -no KNAME " ++ device_path)).1
      let device_name :=
        if (env ("lsblk -no KNAME " ++ device_path)).2 = 0 ∧ lsblk_output ≠ "" then
          pyStrip lsblk_output
        else basename device_path
      match pd.device_data_lines.find?
          (fun l => match (pywords l).head? with
            | some w => w == device_name
            | none => false) with
      | none =>
        Except.ok
          [{ category := "Performance de Disco (I/O)"
             item := "Disco " ++ device_name ++ " (" ++ mount ++ ")"
             status := "ATENÇÃO", priority := "P3 (Média)"
             details := "O dispositivo " ++ device_name ++ ", encontrado para " ++ mount
               ++ ", não foi localizado na saída do iostat." }]
      | some line => Except.ok [io_stats_finding pd device_name mount line]

/-- `check_disk_io()` (lines 436-594), in `Except String` because of the
one uncaught-exception path in the mount loop. -/
def check_disk_io (env : Env) : Except String (List Finding) :=
  let beegfs_mounts := find_beegfs_mounts env
  if (env "iostat -V").2 ≠ 0 then Except.ok []
  else if beegfs_mounts = [] then Except.ok []
  else
    let output := (env "LC_ALL=C iostat -dxk 1 2").1
    if (env "LC_ALL=C iostat -dxk 1 2").2 ≠ 0 then
      Except.ok
        [{ category := "Performance de Disco (I/O)", item := "Execução do iostat"
           status := "FALHA", priority := "P2 (Alta)"
           details := "Não foi possível executar o iostat. Saída: " ++ output }]
    else
      match parse_iostat output with
      | Except.error f => Except.ok [f]
      | Except.ok pd => do
        let fss ← beegfs_mounts.mapM (io_mount_findings env pd)
        pure fss.flatten

/-! ## Orchestrator (monitor_hpc.py `main`, lines 1079-1141) -/

/-- The straight-line check sequence of `main` (lines 1102-1121): each
registered check either returns its findings (`Except.ok`) or raises
(`Except.error`); `main` has no try/except around the calls, so an
exception propagates and every later check, and the whole aggregation,
is abandoned. -/
def run_checks : List (Except String (List Finding)) → Except String (List Finding)
  | [] => Except.ok []
  | r :: rs =>
    match r with
    | Except.error e => Except.error e
    | Except.ok fs =>
      match run_checks rs with
      | Except.error e => Except.error e
      | Except.ok rest => Except.ok (fs ++ rest)

/-- Line 1128: `any(check['status'] in ['ATENÇÃO', 'FALHA'] ...)`. -/
def has_issues (all_checks : List Finding) : Bool :=
  all_checks.any (fun check => check.status == "ATENÇÃO" || check.status == "FALHA")

/-- Line 1131: the HTML report is generated iff `has_issues or
force_html_generation`. -/
def report_rendered (all_checks : List Finding) (force_html_generation : Bool) : Bool :=
  has_issues all_checks || force_html_generation

/-! ## CSV sink (monitor_hpc.py lines 933-953) -/

/-- The header row written by `setup_output_files`. -/
def csv_header : List String :=
  ["timestamp", "category", "item", "status", "priority", "details"]

/-- One CSV row per finding (lines 946-953); every producer sets all
five keys, so the `'N/A'` defaults never fire. -/
def csv_row (timestamp : String) (check : Finding) : List String :=
  [timestamp, check.category, check.item, check.status, check.priority, check.details]

/-- `log_to_csv` (lines 941-953): the file is opened in append mode, so
the new rows go after the existing content, which is untouched. -/
def log_to_csv (file : List (List String)) (all_checks : List Finding) (timestamp : String) :
    List (List String) :=
  file ++ all_checks.map (csv_row timestamp)

/-- `setup_output_files` (lines 933-939) on the CSV state: writes the
header only when the file does not yet exist (`none`). -/
def setup_output_files : Option (List (List String)) → List (List String)
  | none => [csv_header]
  | some existing => existing

/-! ## Concrete inputs used by counterexamples and witnesses -/

/-- ibstat output with Port 1 Active/LinkUp and Port 2 Down (the spec's
C2 test vector). -/
def ibstat_c2 : String :=
  "CA \x27mlx5_0\x27\n   CA type: MT4123\n   Number of ports: 2\n   Port 1:\n      State: Active\n      Physical state: LinkUp\n      Rate: 100\n      Port GUID: 0x0002c9030012d681\n      Link layer: InfiniBand\n   Port 2:\n      State: Down\n      Physical state: Polling\n      Rate: 10\n      Port GUID: 0x0002c9030012d682\n      Link layer: InfiniBand"

/-- ibnetdiscover output in which Port 1 has a switch peer. -/
def ibnet_c2 : String :=
  "Ca  2 \"node01 HCA-1\" -> SW  21 \"MF0;switch-ib01\" lid 1"

/-- Environment for the C2 scenario. -/
def env_c2 : Env := fun cmd =>
  if cmd = "ibstat -V" then ("ibstat 1.6.4", 0)
  else if cmd = "ibstat" then (ibstat_c2, 0)
  else if cmd = "ibnetdiscover" then (ibnet_c2, 0)
  else ("", 0)

/-- ibstat output with a single healthy port (Active/LinkUp). -/
def ibstat_c3 : String :=
  "CA \x27mlx5_0\x27\n   Port 1:\n      State: Active\n      Physical state: LinkUp\n      Rate: 100\n      Port GUID: 0x0002c9030012d681\n      Link layer: InfiniBand"

/-- Environment for the C3 scenario: the healthy port has no peer in
the (empty) topology output. -/
def env_c3 : Env := fun cmd =>
  if cmd = "ibstat -V" then ("ibstat 1.6.4", 0)
  else if cmd = "ibstat" then (ibstat_c3, 0)
  else if cmd = "ibnetdiscover" then ("", 0)
  else ("", 0)

/-- Environment on a host with none of the optional tools installed:
every probe exits 127 (command not found). -/
def env_absent : Env := fun _ => ("", 127)

/-- A healthy (NORMAL) sample finding. -/
def finding_A : Finding :=
  { category := "Recursos de Sistema", item := "Uso de CPU", status := "NORMAL"
    priority := "P4 (Informativa)", details := "Uso de 10.0%" }

/-- A second sample finding, produced by a check ordered after the
faulting one. -/
def finding_B : Finding :=
  { category := "Saúde do S.O.", item := "Processos Zumbis", status := "NORMAL"
    priority := "P4 (Informativa)", details := "Encontrados 0 processos zumbis." }

/-- A meminfo text whose MemTotal is zero. -/
def meminfo_zero : String := "MemTotal: 0 kB\nMemFree: 100 kB"

/-! ## Claim theorems -/

/-- Claim C1, counterexample.  The claim says the orchestrator converts a
check that raises into exactly one synthetic Fail/P1 Finding and still
runs the checks ordered after it.  In the source, `main` wraps no check
in a try/except: with a first check returning `finding_A`, a second
raising, and a third returning `finding_B`, the run is an error — no
aggregate list exists, no synthetic Finding is produced and
`finding_B` is lost. -/
theorem C1_counterexample :
    run_checks [Except.ok [finding_A],
        Except.error "ZeroDivisionError: division by zero",
        Except.ok [finding_B]] =
      Except.error "ZeroDivisionError: division by zero" := rfl

/-- Claim C1, amended.  The orchestrator provides no fault isolation:
if every check before some position succeeds and the check at that
position raises, the exception propagates out of the run (aborting the
aggregation and every later check). -/
theorem C1_no_isolation (pre : List (Except String (List Finding))) (e : String)
    (post : List (Except String (List Finding)))
    (h : ∀ r ∈ pre, ∃ fs, r = Except.ok fs) :
    run_checks (pre ++ Except.error e :: post) = Except.error e := by
  induction pre with
  | nil => rfl
  | cons r rs ih =>
    obtain ⟨fs, rfl⟩ := h r (List.mem_cons_self r rs)
    have hrec := ih (fun x hx => h x (List.mem_cons_of_mem _ hx))
    simp [run_checks, hrec]

/-- Claim C1, witness for the amended theorem at a concrete run. -/
theorem C1_no_isolation_witness :
    run_checks [Except.ok [finding_A], Except.error "boom"] = Except.error "boom" :=
  C1_no_isolation [Except.ok [finding_A]] "boom" []
    (by
      intro r hr
      simp only [List.mem_singleton] at hr
      exact ⟨[finding_A], hr⟩)

/-- Claim C2, counterexample.  With Port 1 Active/LinkUp (with a
topology peer) and Port 2 Down, the claim demands exactly one Fail/P1
Finding for Port 2; the source emits a single combined Finding for the
whole adapter whose status is ATENÇÃO (Warn), so the run contains zero
Fail Findings. -/
theorem C2_counterexample :
    ((check_infiniband env_c2).toList.filter (fun f => f.status == "FALHA")) = [] ∧
    (check_infiniband env_c2).toList.map Finding.status = ["ATENÇÃO"] := by decide

/-- Claim C2, amended.  For the Port 1 Active/LinkUp + Port 2 Down
scenario the check returns exactly one combined Finding with status
ATENÇÃO and priority P2 (Alta); its details contain Port 2's observed
state and the switch peer found for the adapter, and no Fail Finding is
emitted. -/
theorem C2_single_combined_warn :
    (check_infiniband env_c2).map Finding.status = some "ATENÇÃO" ∧
    (check_infiniband env_c2).map Finding.priority = some "P2 (Alta)" ∧
    (check_infiniband env_c2).map (fun f => strContains f.details "Port 2: Estado: Down")
      = some true ∧
    (check_infiniband env_c2).map
      (fun f => strContains f.details "Conectado ao Switch: MF0;switch-ib01") = some true ∧
    (check_infiniband env_c2).map (fun f => f.status == "FALHA") = some false := by decide

/-- Claim C3, counterexample.  For a port that is Active/LinkUp but has
no peer in the topology output, the claim demands exactly one Fail/P1
Finding and no Normal Finding; the source instead returns its single
combined Finding with status NORMAL and priority P4. -/
theorem C3_counterexample :
    (check_infiniband env_c3).toList.map Finding.status = ["NORMAL"] ∧
    ((check_infiniband env_c3).toList.filter (fun f => f.status == "FALHA")) = [] := by decide

/-- Claim C3, amended.  An Active/LinkUp port absent from the topology
output still yields the single combined Finding with status NORMAL and
priority P4 (Informativa); the details merely note that switch
information is unavailable, and no Fail Finding is emitted. -/
theorem C3_unconnected_port_summary :
    (check_infiniband env_c3).map Finding.status = some "NORMAL" ∧
    (check_infiniband env_c3).map Finding.priority = some "P4 (Informativa)" ∧
    (check_infiniband env_c3).map
      (fun f => strContains f.details "Informação do switch não disponível.") = some true := by
  decide

/-- Claim C4: the HTML report is rendered iff some Finding has status
ATENÇÃO or FALHA or the force flag is set; when every Finding is NORMAL
and the flag is absent, rendering is skipped while the CSV log still
gains exactly one row per Finding. -/
theorem C4_report_gating (fs : List Finding) (force : Bool) (file : List (List String))
    (ts : String) :
    (report_rendered fs force = true ↔
      (∃ f ∈ fs, f.status = "ATENÇÃO" ∨ f.status = "FALHA") ∨ force = true) ∧
    ((∀ f ∈ fs, f.status = "NORMAL") → force = false →
      report_rendered fs force = false ∧
      log_to_csv file fs ts = file ++ fs.map (csv_row ts) ∧
      (log_to_csv file fs ts).length = file.length + fs.length) := by
  constructor
  · simp [report_rendered, has_issues, List.any_eq_true]
  · intro hall hforce
    subst hforce
    refine ⟨?_, rfl, by simp [log_to_csv]⟩
    simp only [report_rendered, Bool.or_false, has_issues]
    rw [List.any_eq_false]
    intro f hf
    rw [hall f hf]
    decide

/-- Claim C4, witness: one NORMAL Finding and no force flag. -/
theorem C4_report_gating_witness :
    report_rendered [finding_A] false = false ∧
    log_to_csv [] [finding_A] "2025-09-12 10:00:00"
      = [csv_row "2025-09-12 10:00:00" finding_A] ∧
    (log_to_csv [] [finding_A] "2025-09-12 10:00:00").length = 1 :=
  (C4_report_gating [finding_A] false [] "2025-09-12 10:00:00").2
    (by
      intro f hf
      simp only [List.mem_singleton] at hf
      subst hf
      rfl)
    rfl

/-- Claim C5: `get_status_level` classifies against the Warn threshold
with `>=` semantics — ATENÇÃO exactly when the value is greater than or
equal to the threshold, NORMAL otherwise, and the threshold itself
classifies as ATENÇÃO. -/
theorem C5_threshold_boundary (value warn_threshold : ℚ) :
    ((get_status_level value warn_threshold).1 = "ATENÇÃO" ↔ value ≥ warn_threshold) ∧
    ((get_status_level value warn_threshold).1 = "NORMAL" ↔ value < warn_threshold) ∧
    (get_status_level warn_threshold warn_threshold).1 = "ATENÇÃO" := by
  have h3 : (get_status_level warn_threshold warn_threshold).1 = "ATENÇÃO" := by
    simp [get_status_level]
  by_cases h : value ≥ warn_threshold
  · have h1 : (get_status_level value warn_threshold).1 = "ATENÇÃO" := by
      simp [get_status_level, h]
    refine ⟨iff_of_true h1 h, iff_of_false ?_ (not_lt.mpr h), h3⟩
    intro hn
    rw [h1] at hn
    exact absurd hn (by decide)
  · have h1 : (get_status_level value warn_threshold).1 = "NORMAL" := by
      simp [get_status_level, h]
    refine ⟨iff_of_false ?_ h, iff_of_true h1 (not_le.mp h), h3⟩
    intro hn
    rw [h1] at hn
    exact absurd hn (by decide)

/-- Claim C6: for any two counter samples with a non-zero total delta,
the CPU usage is `100 * (delta_total - delta_idle) / delta_total`. -/
theorem C6_cpu_usage_formula (total1 idle1 total2 idle2 : ℤ)
    (h : total2 - total1 ≠ 0) :
    cpu_usage total1 idle1 total2 idle2 =
      100 * (((total2 - total1 : ℤ) : ℚ) - ((idle2 - idle1 : ℤ) : ℚ))
        / ((total2 - total1 : ℤ) : ℚ) := by
  simp only [cpu_usage]
  rw [if_neg h]

/-- Claim C6, witness: samples (1000, 700) and (1100, 750) give exactly
50 percent. -/
theorem C6_cpu_usage_formula_witness :
    ((1100 : ℤ) - 1000 ≠ 0) ∧ cpu_usage 1000 700 1100 750 = 50 := by
  refine ⟨by decide, ?_⟩
  rw [C6_cpu_usage_formula 1000 700 1100 750 (by decide)]
  norm_num

/-- Claim C7: when the total-time delta is zero the CPU usage is defined
as 0 — the division branch is not taken and `cpu_usage` is a total
function, so no fault occurs. -/
theorem C7_cpu_zero_delta (total1 idle1 total2 idle2 : ℤ)
    (h : total2 - total1 = 0) :
    cpu_usage total1 idle1 total2 idle2 = 0 := by
  simp only [cpu_usage]
  rw [if_pos h]

/-- Claim C7, witness: identical totals give usage 0. -/
theorem C7_cpu_zero_delta_witness : cpu_usage 1000 700 1000 650 = 0 :=
  C7_cpu_zero_delta 1000 700 1000 650 (by decide)

/-- Claim C8: when a check's availability probe exits non-zero (tool not
installed), the check produces zero Findings — `none` for InfiniBand
(so `main` appends nothing) and `[]` for the S.M.A.R.T., disk-I/O and
GPU checks. -/
theorem C8_tool_unavailable (env : Env) :
    ((env "ibstat -V").2 ≠ 0 → check_infiniband env = none) ∧
    ((env "smartctl -V").2 ≠ 0 → check_disk_health env = []) ∧
    ((env "iostat -V").2 ≠ 0 → check_disk_io env = Except.ok []) ∧
    ((env "nvidia-smi -L").2 ≠ 0 → check_gpus env = []) := by
  refine ⟨fun h => ?_, fun h => ?_, fun h => ?_, fun h => ?_⟩
  · simp only [check_infiniband]
    rw [if_pos h]
  · simp only [check_disk_health]
    rw [if_pos h]
  · simp only [check_disk_io]
    rw [if_pos h]
  · simp only [check_gpus]
    rw [if_pos h]

/-- Claim C8, witness: on a host where every probe exits 127, all four
checks are skipped. -/
theorem C8_tool_unavailable_witness :
    ((127 : Int) ≠ 0) ∧
    check_infiniband env_absent = none ∧
    check_disk_health env_absent = [] ∧
    check_disk_io env_absent = Except.ok [] ∧
    check_gpus env_absent = [] := by
  have h := C8_tool_unavailable env_absent
  exact ⟨by decide, h.1 (by decide), h.2.1 (by decide), h.2.2.1 (by decide),
    h.2.2.2 (by decide)⟩

/-- Claim C9: the CSV sink appends exactly one row per Finding with the
columns timestamp, category, item, status, priority, details; the
previous content stays an unchanged prefix (never truncated), and the
header row is written only when the file does not yet exist. -/
theorem C9_csv_frame (file : List (List String)) (all_checks : List Finding)
    (timestamp : String) :
    log_to_csv file all_checks timestamp = file ++ all_checks.map (csv_row timestamp) ∧
    (∀ check, csv_row timestamp check =
      [timestamp, check.category, check.item, check.status, check.priority, check.details]) ∧
    (log_to_csv file all_checks timestamp).take file.length = file ∧
    (log_to_csv file all_checks timestamp).length = file.length + all_checks.length ∧
    setup_output_files none = [csv_header] ∧
    ∀ existing, setup_output_files (some existing) = existing := by
  refine ⟨rfl, fun _ => rfl, ?_, by simp [log_to_csv], rfl, fun _ => rfl⟩
  simp [log_to_csv, List.take_left]

/-- Claim C10: for meminfo content that parses, if MemTotal is absent or
zero (`mem_get` yields 0 either way) the memory usage is defined as 0
and the memory Finding is NORMAL with priority P4 — the division is
guarded, not a fault. -/
theorem C10_mem_total_guard (meminfo : String) (m : List (String × Int))
    (hp : parse_meminfo (splitlines meminfo) = Except.ok m)
    (h0 : mem_get m "MemTotal" = 0) :
    mem_usage_of m = 0 ∧ (check_memory meminfo).status = "NORMAL" ∧
      (check_memory meminfo).priority = "P4 (Informativa)" := by
  have husage : mem_usage_of m = 0 := by
    simp [mem_usage_of, h0]
  have hcond : ¬ ((0 : ℚ) ≥ MEM_THRESHOLD_WARN) := by
    norm_num [MEM_THRESHOLD_WARN]
  have hstatus : (get_status_level (mem_usage_of m) MEM_THRESHOLD_WARN).1 = "NORMAL" := by
    rw [husage]
    simp only [get_status_level]
    rw [if_neg hcond]
  refine ⟨husage, ?_, ?_⟩
  · simp only [check_memory, hp]
    exact hstatus
  · simp only [check_memory, hp]
    rw [hstatus]
    exact if_neg (by decide)

/-- Claim C10, witness: a meminfo text with `MemTotal: 0`. -/
theorem C10_mem_total_guard_witness :
    mem_usage_of [("MemTotal", 0), ("MemFree", 100)] = 0 ∧
    (check_memory meminfo_zero).status = "NORMAL" ∧
    (check_memory meminfo_zero).priority = "P4 (Informativa)" :=
  C10_mem_total_guard meminfo_zero [("MemTotal", 0), ("MemFree", 100)] (by rfl) (by rfl)

end MonitorHpc
